import Mathlib

/-!
Verification of the MCP context-loading trade-off simulation
(`be/chat_tools_speakeasy/simulation.py`).

The Python module is a closed-form deterministic model: pure numeric
functions of a tool count (and, for the dynamic strategy, a discovery-cycle
count).  We embed the token and latency functions over `ℚ` (the Python
arithmetic on these paths is exact decimal arithmetic, faithfully
represented by rationals) and the dynamic accuracy function over `ℝ`
(it uses a base-10 logarithm).  The optional `cycles: int = None`
parameter of the Python functions is embedded as `Option ℕ`.
-/

namespace Speakeasy

/-! ### Model parameters (module-level constants of simulation.py) -/

def BASE_SYSTEM_PROMPT_TOKENS : ℚ := 500

def TOKENS_PER_TOOL_SCHEMA : ℚ := 100

def TOKENS_PER_ENTITY : ℚ := 72

def ENTITIES_PER_TYPE : ℚ := 100

def NUM_ENTITY_TYPES : ℚ := 5

def DYNAMIC_META_TOOLS_TOKENS : ℚ := 150

def DYNAMIC_DISCOVERY_OVERHEAD : ℚ := 75

def DYNAMIC_SCHEMAS_LOADED : ℚ := 5 / 2

def LLM_BASE_LATENCY : ℚ := 800

def LLM_LATENCY_PER_1K_TOKENS : ℚ := 50

def TOOL_CALL_LATENCY : ℚ := 200

def CONTEXT_SIZE_ACCURACY_THRESHOLD : ℚ := 20000

def CONTEXT_SIZE_ACCURACY_DECAY : ℚ := 2 / 100000

def MAX_CONTEXT_ACCURACY_LOSS : ℚ := 15 / 100

def TOOL_COUNT_ACCURACY_THRESHOLD : ℚ := 15

def TOOL_COUNT_ACCURACY_DECAY : ℚ := 3 / 1000

def MAX_TOOL_ACCURACY_LOSS : ℚ := 20 / 100

noncomputable def DISCOVERY_FAILURE_BASE_RATE : ℝ := 2 / 100

noncomputable def DISCOVERY_CYCLE_ERROR_RATE : ℝ := 15 / 1000

def DYNAMIC_CYCLES_MIN : ℕ := 2

def DYNAMIC_CYCLES_AVG : ℕ := 3

def DYNAMIC_CYCLES_MAX : ℕ := 6

/-! ### Approach models (token and latency functions) -/

/-- `full_context_tokens`: tokens do not depend on tools, only on data size
(`np.full_like(num_tools, BASE + ENTITIES_PER_TYPE * NUM_ENTITY_TYPES * TOKENS_PER_ENTITY)`). -/
def full_context_tokens (_num_tools : ℚ) : ℚ :=
  BASE_SYSTEM_PROMPT_TOKENS + ENTITIES_PER_TYPE * NUM_ENTITY_TYPES * TOKENS_PER_ENTITY

/-- `full_context_latency`: single LLM call with large context. -/
def full_context_latency (num_tools : ℚ) : ℚ :=
  LLM_BASE_LATENCY + full_context_tokens num_tools / 1000 * LLM_LATENCY_PER_1K_TOKENS

/-- `static_tools_tokens`: base prompt + all tool schemas upfront +
fixed partial-data overhead `10 * NUM_ENTITY_TYPES * TOKENS_PER_ENTITY * 0.5`. -/
def static_tools_tokens (num_tools : ℚ) : ℚ :=
  BASE_SYSTEM_PROMPT_TOKENS + num_tools * TOKENS_PER_TOOL_SCHEMA +
    10 * NUM_ENTITY_TYPES * TOKENS_PER_ENTITY * (1 / 2)

/-- `static_tools_latency`: inference latency on the static token count
plus an average of 3 tool-call round trips. -/
def static_tools_latency (num_tools : ℚ) : ℚ :=
  (LLM_BASE_LATENCY + static_tools_tokens num_tools / 1000 * LLM_LATENCY_PER_1K_TOKENS) +
    3 * TOOL_CALL_LATENCY

/-- `dynamic_toolset_tokens`: meta-tools + discovery overhead + schemas
actually loaded + partial data `10 * NUM_ENTITY_TYPES * TOKENS_PER_ENTITY * 0.3`;
`np.full_like`, so independent of the tool count. -/
def dynamic_toolset_tokens (_num_tools : ℚ) : ℚ :=
  BASE_SYSTEM_PROMPT_TOKENS + DYNAMIC_META_TOOLS_TOKENS + DYNAMIC_DISCOVERY_OVERHEAD +
    DYNAMIC_SCHEMAS_LOADED * TOKENS_PER_TOOL_SCHEMA +
    10 * NUM_ENTITY_TYPES * TOKENS_PER_ENTITY * (3 / 10)

/-- `dynamic_toolset_latency` (the cycle-parametrized definition at
simulation.py:235, which shadows the earlier fixed-cycle one):
`cycles * (LLM_BASE_LATENCY + tokens/1000 * LLM_LATENCY_PER_1K_TOKENS)
 + (cycles + 1) * TOOL_CALL_LATENCY`, with `cycles = None` defaulting to
`DYNAMIC_CYCLES_AVG`.  No clamping of `cycles` occurs in the source. -/
def dynamic_toolset_latency (num_tools : ℚ) (cycles : Option ℕ) : ℚ :=
  ((cycles.getD DYNAMIC_CYCLES_AVG : ℕ) : ℚ) *
      (LLM_BASE_LATENCY + dynamic_toolset_tokens num_tools / 1000 * LLM_LATENCY_PER_1K_TOKENS) +
    (((cycles.getD DYNAMIC_CYCLES_AVG : ℕ) : ℚ) + 1) * TOOL_CALL_LATENCY

/-- `dynamic_toolset_latency_range`: (best, avg, worst) latency obtained by
calling `dynamic_toolset_latency` with cycle counts min / avg / max. -/
def dynamic_toolset_latency_range (num_tools : ℚ) : ℚ × ℚ × ℚ :=
  (dynamic_toolset_latency num_tools (some DYNAMIC_CYCLES_MIN),
   dynamic_toolset_latency num_tools (some DYNAMIC_CYCLES_AVG),
   dynamic_toolset_latency num_tools (some DYNAMIC_CYCLES_MAX))

/-! ### Accuracy models -/

/-- `full_context_accuracy`: `1 - min(max(0, tokens - threshold) * decay, max_loss) - 0.02`. -/
def full_context_accuracy (num_tools : ℚ) : ℚ :=
  1 - min (max 0 (full_context_tokens num_tools - CONTEXT_SIZE_ACCURACY_THRESHOLD) *
            CONTEXT_SIZE_ACCURACY_DECAY)
          MAX_CONTEXT_ACCURACY_LOSS
    - 2 / 100

/-- `static_tools_accuracy`: `0.98 - min(max(0, num_tools - threshold) * decay, max_loss)`. -/
def static_tools_accuracy (num_tools : ℚ) : ℚ :=
  98 / 100 - min (max 0 (num_tools - TOOL_COUNT_ACCURACY_THRESHOLD) * TOOL_COUNT_ACCURACY_DECAY)
                 MAX_TOOL_ACCURACY_LOSS

/-- The `tool_scaling` term of `dynamic_toolset_accuracy`:
`1 - 0.01 * np.log10(np.maximum(num_tools, 1))`. -/
noncomputable def dyn_tool_scaling (num_tools : ℚ) : ℝ :=
  1 - (1 / 100) * Real.logb 10 (max ((num_tools : ℝ)) 1)

/-- `dynamic_toolset_accuracy`:
`0.97 * (1 - DISCOVERY_CYCLE_ERROR_RATE) ** cycles * tool_scaling - DISCOVERY_FAILURE_BASE_RATE`,
with `cycles = None` defaulting to `DYNAMIC_CYCLES_AVG`.  No clamping of
`cycles` occurs in the source. -/
noncomputable def dynamic_toolset_accuracy (num_tools : ℚ) (cycles : Option ℕ) : ℝ :=
  97 / 100 * (1 - DISCOVERY_CYCLE_ERROR_RATE) ^ (cycles.getD DYNAMIC_CYCLES_AVG) *
      dyn_tool_scaling num_tools
    - DISCOVERY_FAILURE_BASE_RATE

/-- `dynamic_toolset_accuracy_range`: (best, avg, worst) accuracy from
cycle counts min / avg / max. -/
noncomputable def dynamic_toolset_accuracy_range (num_tools : ℚ) : ℝ × ℝ × ℝ :=
  (dynamic_toolset_accuracy num_tools (some DYNAMIC_CYCLES_MIN),
   dynamic_toolset_accuracy num_tools (some DYNAMIC_CYCLES_AVG),
   dynamic_toolset_accuracy num_tools (some DYNAMIC_CYCLES_MAX))

/-! ### Crossover analysis (run_crossover_analysis / print_summary_table) -/

/-- `token_savings_pct = (static_tokens - dynamic_tokens) / static_tokens * 100`. -/
def token_savings_pct (num_tools : ℚ) : ℚ :=
  (static_tools_tokens num_tools - dynamic_toolset_tokens num_tools) /
      static_tools_tokens num_tools * 100

/-- `latency_overhead_pct = (dynamic_latency - static_latency) / static_latency * 100`,
where `dynamic_latency` is computed with the default (average) cycle count. -/
def latency_overhead_pct (num_tools : ℚ) : ℚ :=
  (dynamic_toolset_latency num_tools none - static_tools_latency num_tools) /
      static_tools_latency num_tools * 100

/-- The crossover computation of `run_crossover_analysis` /
`print_summary_table`: `np.where(token_savings_pct > latency_overhead_pct)[0]`
followed by taking `tool_counts[idx[0]]` when the index set is non-empty, and
reporting nothing when it is empty — i.e. the first swept tool count whose
token savings strictly exceed its latency overhead, if any. -/
def compute_crossover (tool_counts : List ℚ) : Option ℚ :=
  tool_counts.find? (fun tc => decide (latency_overhead_pct tc < token_savings_pct tc))

/-! ### Scenario runners -/

/-- The per-strategy series assembled and returned by `run_simulation`
(the plotting side effects carry no numeric content). -/
structure SimulationReport where
  tool_counts : List ℚ
  fc_tokens : List ℚ
  fc_latency : List ℚ
  st_tokens : List ℚ
  st_latency : List ℚ
  dy_tokens : List ℚ
  dy_latency_best : List ℚ
  dy_latency_avg : List ℚ
  dy_latency_worst : List ℚ
  deriving Repr, DecidableEq

/-- `run_simulation(tool_counts=None)`: defaults the sweep, then evaluates
every model function element-wise over it.  The source performs no input
validation whatsoever: empty or negative-valued sweeps flow straight
through the arithmetic. -/
def run_simulation (tool_counts : Option (List ℚ)) : SimulationReport :=
  let tcs := tool_counts.getD [5, 10, 20, 30, 40, 50, 75, 100, 150, 200]
  { tool_counts := tcs
    fc_tokens := tcs.map full_context_tokens
    fc_latency := tcs.map full_context_latency
    st_tokens := tcs.map static_tools_tokens
    st_latency := tcs.map static_tools_latency
    dy_tokens := tcs.map dynamic_toolset_tokens
    dy_latency_best := tcs.map fun tc => (dynamic_toolset_latency_range tc).1
    dy_latency_avg := tcs.map fun tc => (dynamic_toolset_latency_range tc).2.1
    dy_latency_worst := tcs.map fun tc => (dynamic_toolset_latency_range tc).2.2 }

/-- The per-strategy monthly cost series returned by `run_cost_simulation`. -/
structure CostReport where
  tool_counts : List ℚ
  full_context_cost : List ℚ
  static_cost : List ℚ
  dynamic_cost : List ℚ
  deriving Repr, DecidableEq

/-- `run_cost_simulation(tool_counts, queries_per_month, cost_per_million_tokens)`:
`cost_multiplier = queries_per_month * cost_per_million_tokens / 1_000_000`,
each strategy's cost series = its token series times the multiplier. -/
def run_cost_simulation (tool_counts : Option (List ℚ)) (queries_per_month : ℚ)
    (cost_per_million_tokens : ℚ) : CostReport :=
  let tcs := tool_counts.getD [10, 20, 30, 40, 50, 75, 100, 150, 200]
  let cost_multiplier := queries_per_month * cost_per_million_tokens / 1000000
  { tool_counts := tcs
    full_context_cost := tcs.map fun tc => full_context_tokens tc * cost_multiplier
    static_cost := tcs.map fun tc => static_tools_tokens tc * cost_multiplier
    dynamic_cost := tcs.map fun tc => dynamic_toolset_tokens tc * cost_multiplier }

/-! ### Helper lemmas -/

/-- `List.find?` on a list sorted ascending returns the least element
satisfying the predicate, and `none` exactly when no element satisfies it. -/
theorem find_first_of_sorted (p : ℚ → Bool) (l : List ℚ) (hs : l.Sorted (· ≤ ·)) :
    (∀ r, l.find? p = some r →
      r ∈ l ∧ p r = true ∧ ∀ x ∈ l, p x = true → r ≤ x) ∧
    (l.find? p = none → ∀ x ∈ l, p x = false) := by
  induction l with
  | nil =>
    exact ⟨fun r hr => by simp [List.find?] at hr, fun _ x hx => absurd hx (List.not_mem_nil x)⟩
  | cons a t ih =>
    rw [List.sorted_cons] at hs
    obtain ⟨ha, hts⟩ := hs
    have iht := ih hts
    by_cases hpa : p a = true
    · refine ⟨fun r hr => ?_, fun hn => ?_⟩
      · rw [List.find?_cons_of_pos _ hpa] at hr
        cases hr
        refine ⟨List.mem_cons_self a t, hpa, fun x hx _ => ?_⟩
        rcases List.mem_cons.mp hx with rfl | hx'
        · exact le_refl x
        · exact ha x hx'
      · rw [List.find?_cons_of_pos _ hpa] at hn
        exact absurd hn (by simp)
    · have hfind : (a :: t).find? p = t.find? p := List.find?_cons_of_neg _ hpa
      refine ⟨fun r hr => ?_, fun hn x hx => ?_⟩
      · rw [hfind] at hr
        obtain ⟨hmem, hpr, hmin⟩ := iht.1 r hr
        refine ⟨List.mem_cons_of_mem a hmem, hpr, fun x hx hpx => ?_⟩
        rcases List.mem_cons.mp hx with rfl | hx'
        · exact absurd hpx hpa
        · exact hmin x hx' hpx
      · rw [hfind] at hn
        rcases List.mem_cons.mp hx with rfl | hx'
        · exact Bool.eq_false_iff.mpr hpa
        · exact iht.2 hn x hx'

/-- For tool counts at most 10^9 the tool-scaling factor of the dynamic
accuracy model is at least 0.91 (the base-10 logarithm of the clamped
argument is between 0 and 9). -/
theorem dyn_tool_scaling_lower_bound (tc : ℚ) (hbig : tc ≤ 10 ^ 9) :
    (91:ℝ) / 100 ≤ dyn_tool_scaling tc := by
  have hb : (1:ℝ) < 10 := by norm_num
  have hM1 : (1:ℝ) ≤ max ((tc : ℝ)) 1 := le_max_right _ _
  have hMpos : (0:ℝ) < max ((tc : ℝ)) 1 := lt_of_lt_of_le one_pos hM1
  have hM9 : max ((tc : ℝ)) 1 ≤ (10:ℝ) ^ (9:ℕ) := by
    refine max_le ?_ (by norm_num)
    have hcast : (tc : ℝ) ≤ (((10:ℚ) ^ (9:ℕ) : ℚ) : ℝ) := by exact_mod_cast hbig
    push_cast at hcast
    linarith
  have hL9 : Real.logb 10 (max ((tc : ℝ)) 1) ≤ 9 := by
    have hmono : Real.logb 10 (max ((tc : ℝ)) 1) ≤ Real.logb 10 ((10:ℝ) ^ (9:ℕ)) :=
      Real.logb_le_logb_of_le hb hMpos hM9
    have hval : Real.logb 10 ((10:ℝ) ^ (9:ℕ)) = 9 := by
      rw [Real.logb_pow, Real.logb_self_eq_one hb]
      norm_num
    linarith
  simp only [dyn_tool_scaling]
  linarith

/-! ### Claim theorems -/

/-- C4: for every non-negative tool count, the full-context token count is the
same constant, equal exactly to the configured base system-prompt tokens plus
entities-per-type times number-of-entity-types times tokens-per-entity
(500 + 100 * 5 * 72 = 36500), independent of the tool count. -/
theorem C4_full_context_tokens_constant (tc : ℚ) (_h : 0 ≤ tc) :
    full_context_tokens tc =
        BASE_SYSTEM_PROMPT_TOKENS + ENTITIES_PER_TYPE * NUM_ENTITY_TYPES * TOKENS_PER_ENTITY ∧
      full_context_tokens tc = 36500 := by
  constructor
  · rfl
  · norm_num [full_context_tokens, BASE_SYSTEM_PROMPT_TOKENS, ENTITIES_PER_TYPE,
      NUM_ENTITY_TYPES, TOKENS_PER_ENTITY]

/-- Witness for C4, at tool count 123. -/
theorem C4_full_context_tokens_constant_witness :
    (0:ℚ) ≤ 123 ∧
      (full_context_tokens 123 =
          BASE_SYSTEM_PROMPT_TOKENS + ENTITIES_PER_TYPE * NUM_ENTITY_TYPES * TOKENS_PER_ENTITY ∧
        full_context_tokens 123 = 36500) :=
  ⟨by norm_num, C4_full_context_tokens_constant 123 (by norm_num)⟩

/-- C5: for every fixed non-negative tool count, the dynamic-toolset latency at
the configured maximum cycle count (6) is strictly greater than at the
configured minimum cycle count (2). -/
theorem C5_dyn_latency_max_cycles_gt_min (tc : ℚ) (_h : 0 ≤ tc) :
    dynamic_toolset_latency tc (some DYNAMIC_CYCLES_MAX) >
      dynamic_toolset_latency tc (some DYNAMIC_CYCLES_MIN) := by
  norm_num [dynamic_toolset_latency, dynamic_toolset_tokens, DYNAMIC_CYCLES_MAX,
    DYNAMIC_CYCLES_MIN, BASE_SYSTEM_PROMPT_TOKENS, DYNAMIC_META_TOOLS_TOKENS,
    DYNAMIC_DISCOVERY_OVERHEAD, DYNAMIC_SCHEMAS_LOADED, TOKENS_PER_TOOL_SCHEMA,
    NUM_ENTITY_TYPES, TOKENS_PER_ENTITY, LLM_BASE_LATENCY, LLM_LATENCY_PER_1K_TOKENS,
    TOOL_CALL_LATENCY]

/-- Witness for C5, at tool count 50. -/
theorem C5_dyn_latency_max_cycles_gt_min_witness :
    (0:ℚ) ≤ 50 ∧
      dynamic_toolset_latency 50 (some DYNAMIC_CYCLES_MAX) >
        dynamic_toolset_latency 50 (some DYNAMIC_CYCLES_MIN) :=
  ⟨by norm_num, C5_dyn_latency_max_cycles_gt_min 50 (by norm_num)⟩

/-- C6: with the default model constants, at tool count 50 and the average
cycle count 3, the dynamic-toolset latency strictly exceeds the static-tools
latency, while the dynamic-toolset token count is strictly below the
static-tools token count (3508.25 ms vs 1765 ms; 2055 vs 7300 tokens). -/
theorem C6_tradeoff_at_fifty_tools :
    dynamic_toolset_latency 50 (some DYNAMIC_CYCLES_AVG) > static_tools_latency 50 ∧
      dynamic_toolset_tokens 50 < static_tools_tokens 50 := by
  constructor <;>
    norm_num [dynamic_toolset_latency, dynamic_toolset_tokens, static_tools_latency,
      static_tools_tokens, DYNAMIC_CYCLES_AVG, BASE_SYSTEM_PROMPT_TOKENS,
      DYNAMIC_META_TOOLS_TOKENS, DYNAMIC_DISCOVERY_OVERHEAD, DYNAMIC_SCHEMAS_LOADED,
      TOKENS_PER_TOOL_SCHEMA, NUM_ENTITY_TYPES, TOKENS_PER_ENTITY, LLM_BASE_LATENCY,
      LLM_LATENCY_PER_1K_TOKENS, TOOL_CALL_LATENCY]

/-- C7: the static-tools token count is monotone non-decreasing in the tool
count, and at tool count 0 it equals exactly the base prompt tokens plus the
fixed partial-data overhead (the schema term vanishes). -/
theorem C7_static_tokens_monotone_and_zero :
    (∀ a b : ℚ, 0 ≤ a → a ≤ b → static_tools_tokens a ≤ static_tools_tokens b) ∧
      static_tools_tokens 0 =
        BASE_SYSTEM_PROMPT_TOKENS + 10 * NUM_ENTITY_TYPES * TOKENS_PER_ENTITY * (1 / 2) := by
  constructor
  · intro a b _ hab
    simp only [static_tools_tokens, BASE_SYSTEM_PROMPT_TOKENS, TOKENS_PER_TOOL_SCHEMA,
      NUM_ENTITY_TYPES, TOKENS_PER_ENTITY]
    linarith
  · norm_num [static_tools_tokens, BASE_SYSTEM_PROMPT_TOKENS, TOKENS_PER_TOOL_SCHEMA,
      NUM_ENTITY_TYPES, TOKENS_PER_ENTITY]

/-- Witness for C7, at tool counts 3 ≤ 5. -/
theorem C7_static_tokens_monotone_and_zero_witness :
    (0:ℚ) ≤ 3 ∧ (3:ℚ) ≤ 5 ∧ static_tools_tokens 3 ≤ static_tools_tokens 5 :=
  ⟨by norm_num, by norm_num,
    C7_static_tokens_monotone_and_zero.1 3 5 (by norm_num) (by norm_num)⟩

/-- Counterexample for C8: the source never clamps the cycle count into
[DYNAMIC_CYCLES_MIN, DYNAMIC_CYCLES_MAX].  If it did, a request with 9 cycles
would be computed at the effective count 6, and one with 1 cycle at the
effective count 2; the actual latencies differ in both cases
(10124.75 ms vs 6816.5 ms, and 1302.75 ms vs 2405.5 ms at 50 tools). -/
theorem C8_cycle_clamp_counterexample :
    dynamic_toolset_latency 50 (some 9) ≠ dynamic_toolset_latency 50 (some DYNAMIC_CYCLES_MAX) ∧
      dynamic_toolset_latency 50 (some 1) ≠
        dynamic_toolset_latency 50 (some DYNAMIC_CYCLES_MIN) := by
  constructor <;>
    norm_num [dynamic_toolset_latency, dynamic_toolset_tokens, DYNAMIC_CYCLES_MAX,
      DYNAMIC_CYCLES_MIN, BASE_SYSTEM_PROMPT_TOKENS, DYNAMIC_META_TOOLS_TOKENS,
      DYNAMIC_DISCOVERY_OVERHEAD, DYNAMIC_SCHEMAS_LOADED, TOKENS_PER_TOOL_SCHEMA,
      NUM_ENTITY_TYPES, TOKENS_PER_ENTITY, LLM_BASE_LATENCY, LLM_LATENCY_PER_1K_TOKENS,
      TOOL_CALL_LATENCY]

/-- C8 as amended: the cycle count passed to the dynamic-toolset latency and
accuracy functions is used exactly as given, with no clamping: the latency
strictly increases with every extra cycle for every tool count, and the
accuracy strictly decreases with every extra cycle for every tool count in
the tested domain (up to 10^9, where the tool-scaling factor is positive) —
both including cycle counts outside [2, 6]; only when no cycle count is
supplied is the configured average constant (3) used. -/
theorem C8_amended_cycles_used_unclamped (tc : ℚ) (c : ℕ) :
    dynamic_toolset_latency tc (some c) < dynamic_toolset_latency tc (some (c + 1)) ∧
      (tc ≤ 10 ^ 9 →
        dynamic_toolset_accuracy tc (some (c + 1)) < dynamic_toolset_accuracy tc (some c)) ∧
      dynamic_toolset_latency tc none = dynamic_toolset_latency tc (some DYNAMIC_CYCLES_AVG) ∧
      dynamic_toolset_accuracy tc none = dynamic_toolset_accuracy tc (some DYNAMIC_CYCLES_AVG) := by
  refine ⟨?_, ?_, rfl, rfl⟩
  · simp only [dynamic_toolset_latency, dynamic_toolset_tokens, Option.getD_some,
      BASE_SYSTEM_PROMPT_TOKENS, DYNAMIC_META_TOOLS_TOKENS, DYNAMIC_DISCOVERY_OVERHEAD,
      DYNAMIC_SCHEMAS_LOADED, TOKENS_PER_TOOL_SCHEMA, NUM_ENTITY_TYPES, TOKENS_PER_ENTITY,
      LLM_BASE_LATENCY, LLM_LATENCY_PER_1K_TOKENS, TOOL_CALL_LATENCY]
    push_cast
    ring_nf
    nlinarith [Nat.cast_nonneg (α := ℚ) c]
  · intro hbig
    have hS91 : (91:ℝ) / 100 ≤ dyn_tool_scaling tc := dyn_tool_scaling_lower_bound tc hbig
    have hSpos : (0:ℝ) < dyn_tool_scaling tc := lt_of_lt_of_le (by norm_num) hS91
    have hbase : (1:ℝ) - DISCOVERY_CYCLE_ERROR_RATE = 197 / 200 := by
      norm_num [DISCOVERY_CYCLE_ERROR_RATE]
    have hp : (0:ℝ) < ((197:ℝ) / 200) ^ c := by positivity
    have hx : ((197:ℝ) / 200) ^ (c + 1) < ((197:ℝ) / 200) ^ c := by
      calc ((197:ℝ) / 200) ^ (c + 1) = ((197:ℝ) / 200) ^ c * (197 / 200) := pow_succ _ _
        _ < ((197:ℝ) / 200) ^ c * 1 := mul_lt_mul_of_pos_left (by norm_num) hp
        _ = ((197:ℝ) / 200) ^ c := mul_one _
    have e1 : dynamic_toolset_accuracy tc (some (c + 1)) =
        97 / 100 * ((197:ℝ) / 200) ^ (c + 1) * dyn_tool_scaling tc - 2 / 100 := by
      simp only [dynamic_toolset_accuracy, Option.getD_some, hbase]
      norm_num [DISCOVERY_FAILURE_BASE_RATE]
    have e2 : dynamic_toolset_accuracy tc (some c) =
        97 / 100 * ((197:ℝ) / 200) ^ c * dyn_tool_scaling tc - 2 / 100 := by
      simp only [dynamic_toolset_accuracy, Option.getD_some, hbase]
      norm_num [DISCOVERY_FAILURE_BASE_RATE]
    rw [e1, e2]
    have hmul : 97 / 100 * ((197:ℝ) / 200) ^ (c + 1) < 97 / 100 * ((197:ℝ) / 200) ^ c :=
      mul_lt_mul_of_pos_left hx (by norm_num)
    have hfin := mul_lt_mul_of_pos_right hmul hSpos
    linarith

/-- Witness for C8 as amended, at tool count 50 and the out-of-range cycle
count 8 → 9: latency strictly grows and accuracy strictly drops, so neither
function clamps the supplied count. -/
theorem C8_amended_cycles_used_unclamped_witness :
    (50:ℚ) ≤ 10 ^ 9 ∧
      dynamic_toolset_latency 50 (some 8) < dynamic_toolset_latency 50 (some 9) ∧
      dynamic_toolset_accuracy 50 (some 9) < dynamic_toolset_accuracy 50 (some 8) := by
  have h := C8_amended_cycles_used_unclamped 50 8
  exact ⟨by norm_num, h.1, h.2.1 (by norm_num)⟩

/-- Counterexample for C3: the sweep entry point performs no validation at
all.  An empty tool-count sequence is not rejected — it yields a report whose
series are all empty — and a sequence containing the negative count −1 is
processed by the formulas (static-tools tokens 500 − 100 + 1800 = 2200). -/
theorem C3_no_validation_counterexample :
    (run_simulation (some [])).tool_counts = [] ∧
      (run_simulation (some [])).st_tokens = [] ∧
      (run_simulation (some [-1])).st_tokens = [2200] := by
  refine ⟨rfl, rfl, ?_⟩
  norm_num [run_simulation, static_tools_tokens, BASE_SYSTEM_PROMPT_TOKENS,
    TOKENS_PER_TOOL_SCHEMA, NUM_ENTITY_TYPES, TOKENS_PER_ENTITY]

/-- C3 as amended: `run_simulation` applies no input validation whatsoever —
every supplied tool-count sequence, including the empty sequence and sequences
with negative entries, is mapped element-wise through the model functions and
returned as a report (so an empty input produces empty series rather than an
error). -/
theorem C3_amended_no_validation (tcs : List ℚ) :
    (run_simulation (some tcs)).tool_counts = tcs ∧
      (run_simulation (some tcs)).fc_tokens = tcs.map full_context_tokens ∧
      (run_simulation (some tcs)).st_tokens = tcs.map static_tools_tokens ∧
      (run_simulation (some tcs)).st_latency = tcs.map static_tools_latency ∧
      (run_simulation (some tcs)).dy_tokens = tcs.map dynamic_toolset_tokens ∧
      (run_simulation (some tcs)).dy_latency_avg =
        tcs.map fun tc => dynamic_toolset_latency tc (some DYNAMIC_CYCLES_AVG) :=
  ⟨rfl, rfl, rfl, rfl, rfl, rfl⟩

/-- C9: with queries_per_month = 1,000,000 and cost_per_million_tokens = 3.0,
every strategy's monthly cost series equals its tokens-per-query series
multiplied by 3 (tokens * 1,000,000 * 3.0 / 1,000,000), at every swept tool
count. -/
theorem C9_monthly_cost_projection (tcs : List ℚ) :
    (run_cost_simulation (some tcs) 1000000 3).full_context_cost =
        (tcs.map fun tc => full_context_tokens tc * 3) ∧
      (run_cost_simulation (some tcs) 1000000 3).static_cost =
        (tcs.map fun tc => static_tools_tokens tc * 3) ∧
      (run_cost_simulation (some tcs) 1000000 3).dynamic_cost =
        (tcs.map fun tc => dynamic_toolset_tokens tc * 3) := by
  have hm : (1000000 : ℚ) * 3 / 1000000 = 3 := by norm_num
  refine ⟨?_, ?_, ?_⟩ <;> simp [run_cost_simulation, hm]

/-- C10: the argument of the base-10 logarithm in the dynamic accuracy model
is clamped to at least 1, so at tool count 0 the tool-scaling factor equals 1
exactly and the accuracy at 0 tools coincides with the accuracy at 1 tool,
for every cycle-count argument. -/
theorem C10_zero_tools_log_guard (c : Option ℕ) :
    dyn_tool_scaling 0 = 1 ∧ dynamic_toolset_accuracy 0 c = dynamic_toolset_accuracy 1 c := by
  have h0 : max (((0:ℚ) : ℝ)) 1 = 1 := by norm_num
  have h1 : max (((1:ℚ) : ℝ)) 1 = 1 := by norm_num
  have hs0 : dyn_tool_scaling 0 = 1 := by
    simp [dyn_tool_scaling, h0]
  have hs1 : dyn_tool_scaling 1 = 1 := by
    simp [dyn_tool_scaling, h1]
  exact ⟨hs0, by simp [dynamic_toolset_accuracy, hs0, hs1]⟩

/-- C1: for an ascending sweep of tool counts, the crossover computation
returns the smallest tool count in the swept range whose token savings
percentage (dynamic vs static) strictly exceeds its latency overhead
percentage (net benefit first positive); and if no such tool count exists in
the input range it returns none — never a default or out-of-range count. -/
theorem C1_compute_crossover_correct (tcs : List ℚ) (hs : tcs.Sorted (· ≤ ·)) :
    (∀ r, compute_crossover tcs = some r →
      r ∈ tcs ∧ latency_overhead_pct r < token_savings_pct r ∧
        ∀ x ∈ tcs, latency_overhead_pct x < token_savings_pct x → r ≤ x) ∧
    (compute_crossover tcs = none →
      ∀ x ∈ tcs, ¬ latency_overhead_pct x < token_savings_pct x) := by
  have h := find_first_of_sorted
    (fun tc => decide (latency_overhead_pct tc < token_savings_pct tc)) tcs hs
  refine ⟨fun r hr => ?_, fun hn x hx hlt => ?_⟩
  · obtain ⟨h1, h2, h3⟩ := h.1 r hr
    exact ⟨h1, of_decide_eq_true h2, fun x hx hpx => h3 x hx (decide_eq_true hpx)⟩
  · exact of_decide_eq_false (h.2 hn x hx) hlt

/-- Witness for C1: on the ascending sweep [50, 100, 150] the crossover is
100 (at 50 tools the latency overhead still exceeds the token savings). -/
theorem C1_compute_crossover_correct_witness :
    compute_crossover [50, 100, 150] = some 100 ∧
      (100:ℚ) ∈ ([50, 100, 150] : List ℚ) ∧
      latency_overhead_pct 100 < token_savings_pct 100 := by
  have hsorted : List.Sorted (· ≤ ·) ([50, 100, 150] : List ℚ) := by
    norm_num [List.sorted_cons]
  have h50 : ¬ latency_overhead_pct 50 < token_savings_pct 50 := by
    norm_num [latency_overhead_pct, token_savings_pct, static_tools_tokens,
      dynamic_toolset_tokens, static_tools_latency, dynamic_toolset_latency, Option.getD,
      BASE_SYSTEM_PROMPT_TOKENS, TOKENS_PER_TOOL_SCHEMA, TOKENS_PER_ENTITY, ENTITIES_PER_TYPE,
      NUM_ENTITY_TYPES, DYNAMIC_META_TOOLS_TOKENS, DYNAMIC_DISCOVERY_OVERHEAD,
      DYNAMIC_SCHEMAS_LOADED, LLM_BASE_LATENCY, LLM_LATENCY_PER_1K_TOKENS, TOOL_CALL_LATENCY,
      DYNAMIC_CYCLES_AVG]
  have h100 : latency_overhead_pct 100 < token_savings_pct 100 := by
    norm_num [latency_overhead_pct, token_savings_pct, static_tools_tokens,
      dynamic_toolset_tokens, static_tools_latency, dynamic_toolset_latency, Option.getD,
      BASE_SYSTEM_PROMPT_TOKENS, TOKENS_PER_TOOL_SCHEMA, TOKENS_PER_ENTITY, ENTITIES_PER_TYPE,
      NUM_ENTITY_TYPES, DYNAMIC_META_TOOLS_TOKENS, DYNAMIC_DISCOVERY_OVERHEAD,
      DYNAMIC_SCHEMAS_LOADED, LLM_BASE_LATENCY, LLM_LATENCY_PER_1K_TOKENS, TOOL_CALL_LATENCY,
      DYNAMIC_CYCLES_AVG]
  have hc : compute_crossover [50, 100, 150] = some 100 := by
    unfold compute_crossover
    rw [List.find?_cons_of_neg _ (by simpa using h50),
      List.find?_cons_of_pos _ (by simpa using h100)]
  have h := C1_compute_crossover_correct [50, 100, 150] hsorted
  exact ⟨hc, (h.1 100 hc).1, (h.1 100 hc).2.1⟩

/-- C2: over the tested domain — tool counts from 0 up to 10^9 (covering every
sweep in the source, which stops at 300, as well as "very large" counts) and
cycle counts in the configured [min, max] = [2, 6] range — each of the three
strategies' accuracy functions returns a value in [0, 1]. -/
theorem C2_accuracy_in_unit_interval (tc : ℚ) (_h0 : 0 ≤ tc) (hbig : tc ≤ 10 ^ 9)
    (c : ℕ) (_hcmin : DYNAMIC_CYCLES_MIN ≤ c) (hcmax : c ≤ DYNAMIC_CYCLES_MAX) :
    (0 ≤ full_context_accuracy tc ∧ full_context_accuracy tc ≤ 1) ∧
      (0 ≤ static_tools_accuracy tc ∧ static_tools_accuracy tc ≤ 1) ∧
      (0 ≤ dynamic_toolset_accuracy tc (some c) ∧ dynamic_toolset_accuracy tc (some c) ≤ 1) := by
  refine ⟨?_, ?_, ?_⟩
  · have hfc : full_context_accuracy tc = 83 / 100 := by
      norm_num [full_context_accuracy, full_context_tokens, BASE_SYSTEM_PROMPT_TOKENS,
        ENTITIES_PER_TYPE, NUM_ENTITY_TYPES, TOKENS_PER_ENTITY,
        CONTEXT_SIZE_ACCURACY_THRESHOLD, CONTEXT_SIZE_ACCURACY_DECAY,
        MAX_CONTEXT_ACCURACY_LOSS, min_def, max_def]
    rw [hfc]
    norm_num
  · have hloss0 : 0 ≤ min (max 0 (tc - TOOL_COUNT_ACCURACY_THRESHOLD) *
        TOOL_COUNT_ACCURACY_DECAY) MAX_TOOL_ACCURACY_LOSS := by
      refine le_min (mul_nonneg (le_max_left 0 _) ?_) ?_ <;>
        norm_num [TOOL_COUNT_ACCURACY_DECAY, MAX_TOOL_ACCURACY_LOSS]
    have hloss2 : min (max 0 (tc - TOOL_COUNT_ACCURACY_THRESHOLD) *
        TOOL_COUNT_ACCURACY_DECAY) MAX_TOOL_ACCURACY_LOSS ≤ 20 / 100 := by
      refine le_trans (min_le_right _ _) ?_
      norm_num [MAX_TOOL_ACCURACY_LOSS]
    simp only [static_tools_accuracy]
    constructor <;> linarith
  · -- bounds on the logarithm term
    have hb : (1:ℝ) < 10 := by norm_num
    have hM1 : (1:ℝ) ≤ max ((tc : ℝ)) 1 := le_max_right _ _
    have hMpos : (0:ℝ) < max ((tc : ℝ)) 1 := lt_of_lt_of_le one_pos hM1
    have hM9 : max ((tc : ℝ)) 1 ≤ (10:ℝ) ^ (9:ℕ) := by
      refine max_le ?_ (by norm_num)
      have hcast : (tc : ℝ) ≤ (((10:ℚ) ^ (9:ℕ) : ℚ) : ℝ) := by exact_mod_cast hbig
      push_cast at hcast
      linarith
    have hL0 : 0 ≤ Real.logb 10 (max ((tc : ℝ)) 1) := Real.logb_nonneg hb hM1
    have hL9 : Real.logb 10 (max ((tc : ℝ)) 1) ≤ 9 := by
      have hmono : Real.logb 10 (max ((tc : ℝ)) 1) ≤ Real.logb 10 ((10:ℝ) ^ (9:ℕ)) :=
        Real.logb_le_logb_of_le hb hMpos hM9
      have hval : Real.logb 10 ((10:ℝ) ^ (9:ℕ)) = 9 := by
        rw [Real.logb_pow, Real.logb_self_eq_one hb]
        norm_num
      linarith
    -- bounds on the tool-scaling factor
    have hS1 : dyn_tool_scaling tc ≤ 1 := by
      simp only [dyn_tool_scaling]
      linarith
    have hS91 : (91:ℝ) / 100 ≤ dyn_tool_scaling tc := by
      simp only [dyn_tool_scaling]
      linarith
    have hS0 : (0:ℝ) ≤ dyn_tool_scaling tc := le_trans (by norm_num) hS91
    -- bounds on the compounding cycle-success factor
    have hc6 : c ≤ 6 := by simpa [DYNAMIC_CYCLES_MAX] using hcmax
    have hbase : (1:ℝ) - DISCOVERY_CYCLE_ERROR_RATE = 197 / 200 := by
      norm_num [DISCOVERY_CYCLE_ERROR_RATE]
    have hX1 : ((197:ℝ) / 200) ^ c ≤ 1 := pow_le_one₀ (by norm_num) (by norm_num)
    have hX6 : ((197:ℝ) / 200) ^ (6:ℕ) ≤ ((197:ℝ) / 200) ^ c :=
      pow_le_pow_of_le_one (by norm_num) (by norm_num) hc6
    have hX91 : (91:ℝ) / 100 ≤ ((197:ℝ) / 200) ^ c := by
      refine le_trans ?_ hX6
      norm_num
    have hX0 : (0:ℝ) ≤ ((197:ℝ) / 200) ^ c := by positivity
    have hacc : dynamic_toolset_accuracy tc (some c) =
        97 / 100 * ((197:ℝ) / 200) ^ c * dyn_tool_scaling tc - 2 / 100 := by
      simp only [dynamic_toolset_accuracy, Option.getD_some, hbase]
      norm_num [DISCOVERY_FAILURE_BASE_RATE]
    rw [hacc]
    constructor
    · have hstep : (97:ℝ) / 100 * (91 / 100) * (91 / 100) ≤
          97 / 100 * ((197:ℝ) / 200) ^ c * dyn_tool_scaling tc := by
        refine mul_le_mul ?_ hS91 (by norm_num) ?_
        · exact mul_le_mul_of_nonneg_left hX91 (by norm_num)
        · exact mul_nonneg (by norm_num) hX0
      nlinarith
    · have hstep : 97 / 100 * ((197:ℝ) / 200) ^ c * dyn_tool_scaling tc ≤
          (97:ℝ) / 100 * 1 * 1 := by
        refine mul_le_mul ?_ hS1 hS0 (by norm_num)
        · exact mul_le_mul_of_nonneg_left hX1 (by norm_num)
      nlinarith

/-- Witness for C2, at tool count 50 and cycle count 3. -/
theorem C2_accuracy_in_unit_interval_witness :
    (0 ≤ full_context_accuracy 50 ∧ full_context_accuracy 50 ≤ 1) ∧
      (0 ≤ static_tools_accuracy 50 ∧ static_tools_accuracy 50 ≤ 1) ∧
      (0 ≤ dynamic_toolset_accuracy 50 (some 3) ∧ dynamic_toolset_accuracy 50 (some 3) ≤ 1) :=
  C2_accuracy_in_unit_interval 50 (by norm_num) (by norm_num) 3
    (by norm_num [DYNAMIC_CYCLES_MIN]) (by norm_num [DYNAMIC_CYCLES_MAX])

end Speakeasy
